import Mathlib

/-!
Shallow embedding of the financial projection engine of `app.py`
(`generate_projection`, `get_phased_growth_rate`, `month_index_for_date`
and the period-calendar loop), with theorems checking the specification's
claims about it.  Python floats are modelled as rationals, Python dicts as
insertion-ordered association lists, and the `try/except` wrapper of
`generate_projection` as an `Except`-valued fold whose error branch yields
the empty ledger.
-/

namespace InvDash

attribute [local semireducible] Rat.add Rat.mul Rat.inv Rat.sub Rat.ofScientific

/-- ASCII lowercasing of a character (the engine's frequency strings and
plan/role names are ASCII, where this agrees with Python's `str.lower`). -/
def lowerChar (c : Char) : Char :=
  if 'A' ≤ c ∧ c ≤ 'Z' then Char.ofNat (c.toNat + 32) else c

/-- ASCII `str.lower()`, by structural recursion over the characters. -/
def strLower (s : String) : String :=
  ⟨s.data.map lowerChar⟩

/-- Python's built-in `round`: round half to even (banker's rounding). -/
def pyRound (q : ℚ) : Int :=
  let f := ⌊q⌋
  let r := q - (f : ℚ)
  if r < 1/2 then f
  else if 1/2 < r then f + 1
  else if f % 2 = 0 then f else f + 1

/-- The literal `1e-9` used by the lump-sum tolerance checks in `app.py`. -/
def qEps : ℚ := 1/1000000000

/-- A calendar date (Python `datetime.date`). -/
structure MyDate where
  y : Int
  m : Int
  d : Int
deriving DecidableEq

/-- Gregorian leap-year rule, as implemented by Python's `calendar`/`dateutil`. -/
def isLeap (y : Int) : Bool :=
  decide (y % 4 = 0) && (decide (y % 100 ≠ 0) || decide (y % 400 = 0))

/-- Number of days in a month, used by `relativedelta` to clamp the day. -/
def daysInMonth (y m : Int) : Int :=
  if m = 2 then (if isLeap y then 29 else 28)
  else if m = 4 ∨ m = 6 ∨ m = 9 ∨ m = 11 then 30
  else 31

/-- `date + relativedelta(months=k)`: shift by `k` months, clamping the day
to the last valid day of the target month (e.g. Jan 31 + 1 month = Feb 28). -/
def addMonths (dt : MyDate) (k : Int) : MyDate :=
  let t := (dt.m - 1) + k
  let y2 := dt.y + t.fdiv 12
  let m2 := t.emod 12 + 1
  ⟨y2, m2, min dt.d (daysInMonth y2 m2)⟩

/-- Lexicographic `<=` on dates (Python `date.__le__`). -/
def dateLe (a b : MyDate) : Bool :=
  decide (a.y < b.y) ||
    (decide (a.y = b.y) &&
      (decide (a.m < b.m) || (decide (a.m = b.m) && decide (a.d ≤ b.d))))

/-- Lexicographic `<` on dates (Python `date.__lt__`). -/
def dateLt (a b : MyDate) : Bool :=
  decide (a.y < b.y) ||
    (decide (a.y = b.y) &&
      (decide (a.m < b.m) || (decide (a.m = b.m) && decide (a.d < b.d))))

/-- Calendar-month difference `(b.year - a.year) * 12 + (b.month - a.month)`. -/
def monthDiff (a b : MyDate) : Int :=
  (b.y - a.y) * 12 + (b.m - a.m)

/-- `month_index_for_date` from `app.py`: the 1-based index of the period in
which `target` falls relative to `startD`, or `0` if `target` is earlier.
Note this helper treats any frequency other than `month`/`quarter` as yearly. -/
def month_index_for_date (target startD : MyDate) (frequency : String) : Int :=
  let total_month_diff := monthDiff startD target
  if total_month_diff < 0 then 0
  else
    let freq := strLower frequency
    if freq = "month" then total_month_diff + 1
    else if freq = "quarter" then total_month_diff.fdiv 3 + 1
    else total_month_diff.fdiv 12 + 1

/-- The `while current_dt <= end_date` loop of `generate_projection`,
with fuel (the fuel supplied by `dtListFor` exceeds the iteration count,
since each step advances the month counter by at least one). -/
def buildDtList (endD : MyDate) (stepM : Int) : Nat → MyDate → List MyDate
  | 0, _ => []
  | fuel + 1, cur =>
    if dateLe cur endD then cur :: buildDtList endD stepM fuel (addMonths cur stepM)
    else []

/-- Frequency normalization of `generate_projection`: lowercase, and anything
other than month/quarter/year falls back to month. -/
def normFreq (frequency : String) : String :=
  let f := strLower frequency
  if f = "month" ∨ f = "quarter" ∨ f = "year" then f else "month"

/-- Months stepped per iteration for a normalized frequency. -/
def stepMonthsFor (freq : String) : Int :=
  if freq = "month" then 1 else if freq = "quarter" then 3 else 12

/-- Period-length-in-months for a normalized frequency. -/
def periodLengthFor (freq : String) : ℚ :=
  if freq = "month" then 1 else if freq = "quarter" then 3 else 12

/-- Periods per year for a normalized frequency. -/
def periodsPerYearFor (freq : String) : ℚ :=
  if freq = "month" then 12 else if freq = "quarter" then 4 else 1

/-- The period list of `generate_projection` (lines 278-290 of `app.py`):
step from `startD` while `<= endD`; if the result is empty fall back to
`[startD, startD + 1 month]`. -/
def dtListFor (startD endD : MyDate) (frequency : String) : List MyDate :=
  let freq := normFreq frequency
  let fuel := (monthDiff startD endD).toNat + 20
  let lst := buildDtList endD (stepMonthsFor freq) fuel startD
  if lst.length < 1 then [startD, addMonths startD 1] else lst

/-- `d.get(k, v)` on a string-keyed Python dict. -/
def lookupD {α : Type} (l : List (String × α)) (k : String) (v : α) : α :=
  (l.lookup k).getD v

/-- `d[k] = v` on a string-keyed Python dict (replace if present, else append). -/
def setAssoc {α : Type} (l : List (String × α)) (k : String) (v : α) :
    List (String × α) :=
  match l with
  | [] => [(k, v)]
  | (k2, v2) :: t => if k2 = k then (k, v) :: t else (k2, v2) :: setAssoc t k v

/-- `d[k]` on a string-keyed Python dict: raises `KeyError` when absent. -/
def dictGetE (d : List (String × ℚ)) (k : String) : Except String ℚ :=
  match d.lookup k with
  | some v => .ok v
  | none => .error ("KeyError: " ++ k)

/-- Substring test over character lists. -/
def hasSubList (needle : List Char) : List Char → Bool
  | [] => needle.isEmpty
  | c :: t => needle.isPrefixOf (c :: t) || hasSubList needle t

/-- Python's `needle in hay` on strings. -/
def strContains (hay needle : String) : Bool :=
  hasSubList needle.toList hay.toList

/-- `get_phased_growth_rate` from `app.py`: growth rate (%) for a 0-based
`month_idx`, from three interpolated phases with flat carry-over between
them and a final plateau.  A non-positive span skips interpolation
(`frac = 0`), so no division by zero occurs. -/
def get_phased_growth_rate (month_idx : Nat)
    (phase1_start_month phase1_end_month phase1_start_rate phase1_end_rate
     phase2_start_month phase2_end_month phase2_start_rate phase2_end_rate
     phase3_start_month phase3_end_month phase3_start_rate phase3_end_rate
     plateau_rate : ℚ) : ℚ :=
  let i : ℚ := (month_idx : ℚ) + 1
  if i < phase1_start_month then phase1_start_rate
  else if phase1_start_month ≤ i ∧ i < phase1_end_month then
    let total_span := phase1_end_month - phase1_start_month
    let frac := if total_span > 0 then (i - phase1_start_month) / total_span else 0
    phase1_start_rate + frac * (phase1_end_rate - phase1_start_rate)
  else if phase1_end_month ≤ i ∧ i < phase2_start_month then phase1_end_rate
  else if phase2_start_month ≤ i ∧ i < phase2_end_month then
    let total_span := phase2_end_month - phase2_start_month
    let frac := if total_span > 0 then (i - phase2_start_month) / total_span else 0
    phase2_start_rate + frac * (phase2_end_rate - phase2_start_rate)
  else if phase2_end_month ≤ i ∧ i < phase3_start_month then phase2_end_rate
  else if phase3_start_month ≤ i ∧ i < phase3_end_month then
    let total_span := phase3_end_month - phase3_start_month
    let frac := if total_span > 0 then (i - phase3_start_month) / total_span else 0
    phase3_start_rate + frac * (phase3_end_rate - phase3_start_rate)
  else plateau_rate

/-- One entry of `fixed_staff_info` / `variable_staff_info` (modelled as a
record: the engine reads exactly these four keys from each staff dict). -/
structure StaffInfo where
  headcount : Int
  base_salary : ℚ
  annual_raise : ℚ
  capacity : ℚ
deriving DecidableEq

/-- One entry of `overhead_items`. -/
structure OverheadItem where
  name : String
  monthly_cost : ℚ
  annual_increase : ℚ
deriving DecidableEq

/-- One funding round (`{month_trigger, amount}`). -/
structure FundingRound where
  month_trigger : Int
  amount : ℚ
deriving DecidableEq

/-- The keyword arguments of `generate_projection`, with the source's default
values.  A plan's config is kept as a string-keyed dict, as in the source:
`monthly_selling_price` / `monthly_cos` are read with raising `[]` access and
the setup fields with `.get(..., 0.0)`. -/
structure Config where
  start_date : Option MyDate := none
  end_date : Option MyDate := none
  frequency : String := "Month"
  initial_cash : ℚ := 500000
  inflation_rate : ℚ := 5
  phase1_start_month : ℚ := 1
  phase1_end_month : ℚ := 3
  phase1_start_rate : ℚ := 3
  phase1_end_rate : ℚ := 5
  phase2_start_month : ℚ := 4
  phase2_end_month : ℚ := 8
  phase2_start_rate : ℚ := 6
  phase2_end_rate : ℚ := 15
  phase3_start_month : ℚ := 9
  phase3_end_month : ℚ := 12
  phase3_start_rate : ℚ := 16
  phase3_end_rate : ℚ := 25
  plateau_rate : ℚ := 10
  initial_clients : Int := 10
  churn_rate_annual : ℚ := 10
  client_plan_distribution : Option (List (String × ℚ)) := none
  plans_info : Option (List (String × List (String × ℚ))) := none
  topup_users_pct : ℚ := 0
  topup_utilization_pct : ℚ := 0
  topup_cost_per_unit_msg : ℚ := 5/100
  topup_price_per_unit_msg : ℚ := 8/100
  topup_cost_per_unit_min : ℚ := 5/100
  topup_price_per_unit_min : ℚ := 8/100
  included_quota_per_plan : Option (List (String × (ℚ × ℚ))) := none
  rd_investment_pct : ℚ := 0
  rd_revenue_pct : ℚ := 0
  funding_rounds : Option (List FundingRound) := none
  allocate_new_investment_across_expenses : Bool := false
  fixed_staff_info : Option (List (String × StaffInfo)) := none
  variable_staff_info : Option (List (String × StaffInfo)) := none
  onboarding_hours_per_plan : Option (List (String × ℚ)) := none
  monthly_maintenance_hrs_per_plan : Option (List (String × ℚ)) := none
  onboarding_decrease_factors_per_plan : Option (List (String × ℚ)) := none
  maintenance_decrease_factors_per_plan : Option (List (String × ℚ)) := none
  overhead_items : Option (List OverheadItem) := none
  marketing_mode : String := "fixed"
  marketing_budget : ℚ := 120000
  marketing_pct_of_revenue : ℚ := 0
  hardware_cost_per_employee : ℚ := 0
  enable_initial_loan : Bool := false
  initial_loan_amount : ℚ := 0
  loan_interest_rate_annual : ℚ := 0
  loan_payback_strategy : String := "none"
  loan_payback_start_month : Int := 1
  loan_payback_end_date : Option MyDate := none
  loan_fixed_amount : ℚ := 0
  loan_percent_of_profit : ℚ := 0
  loan_lump_sum : ℚ := 0
  lump_sum_paid : Bool := false

/-- Default fallback for `plans_info` when `None` is passed. -/
def defaultPlansInfo : List (String × List (String × ℚ)) :=
  [("Basic", [("monthly_cos", 2000), ("setup_cos", 3000),
              ("monthly_selling_price", 5000), ("setup_selling_price", 4000)])]

/-- Default fallback for `overhead_items` when `None` is passed. -/
def defaultOverheadItems : List OverheadItem :=
  [⟨"Office Rental", 10000, 5⟩, ⟨"Communications", 3000, 5⟩,
   ⟨"Administration", 2000, 5⟩, ⟨"Insurance", 1500, 5⟩,
   ⟨"Logistics", 2500, 5⟩, ⟨"Transport", 4000, 5⟩,
   ⟨"Legal", 5000, 5⟩, ⟨"Sundry", 2000, 5⟩,
   ⟨"Software Subscriptions", 5000, 5⟩, ⟨"Software", 2000, 5⟩]

/-- Default fallback for `fixed_staff_info` when `None` is passed. -/
def defaultFixedStaff : List (String × StaffInfo) :=
  [("CEO - RCS Executive", ⟨1, 150000, 7/100, 0⟩),
   ("CTO - RCS Executive", ⟨1, 130000, 7/100, 0⟩)]

/-- Default fallback for `variable_staff_info` when `None` is passed. -/
def defaultVariableStaff : List (String × StaffInfo) :=
  [("Onboarding Specialist", ⟨0, 3000, 5/100, 160⟩),
   ("Technical Support Programmers", ⟨0, 3500, 5/100, 160⟩)]

/-- One row of the output ledger (the numeric columns of the results
DataFrame; the presentational `Time_Label` string is omitted).  `lumpPay` is
the lump-sum component of `CashFlow_LoanPayment` (the source's `pay_now` /
`lumpsum_pay`), recorded to reason about the one-shot lump-sum claim. -/
structure Row where
  ParsedDate : MyDate
  Clients_Starting : Int
  Clients_New : Int
  Clients_Churned : Int
  Clients_Ending : Int
  Revenue_Subscription : ℚ
  Revenue_SetupFees : ℚ
  Revenue_TopUp : ℚ
  Revenue_Total : ℚ
  COS_Subscription : ℚ
  COS_TopUp : ℚ
  COS_Total : ℚ
  Profit_GrossProfit : ℚ
  Staff_Fixed : Int
  Staff_Variable : Int
  Cost_StaffFixed : ℚ
  Cost_StaffVariable : ℚ
  Cost_Staff : ℚ
  Cost_Overheads : ℚ
  Cost_Hardware : ℚ
  Cost_Marketing : ℚ
  Cost_RDExpense : ℚ
  Cost_OperatingExpenses : ℚ
  Profit_EBITDA : ℚ
  Profit_NetIncome : ℚ
  CashFlow_FundingInflow : ℚ
  CashFlow_LoanInflow : ℚ
  CashFlow_LoanPayment : ℚ
  CashFlow_LoanBalance : ℚ
  CashFlow_EndingCash : ℚ
  Staff_OnboardingHrsUsed : ℚ
  Staff_MaintenanceHrsUsed : ℚ
  lumpPay : ℚ
deriving DecidableEq

/-- The rolling per-period state of the projection loop. -/
structure ProjState where
  current_clients : Int
  current_cash : ℚ
  loan_balance : ℚ
  lumpsum_already_paid : Bool
  current_variable_staff_headcount : List (String × Int)
deriving DecidableEq

/-- The configuration after the defaulting / normalization prologue of
`generate_projection` (lines 258-416): dates resolved, frequency normalized,
`None` fallbacks substituted, churn converted to per-period, the period list
built and the `Lump + Timeline` end index precomputed. -/
structure RConfig where
  period_length_in_months : ℚ
  dts : List MyDate
  phase1_start_month : ℚ
  phase1_end_month : ℚ
  phase1_start_rate : ℚ
  phase1_end_rate : ℚ
  phase2_start_month : ℚ
  phase2_end_month : ℚ
  phase2_start_rate : ℚ
  phase2_end_rate : ℚ
  phase3_start_month : ℚ
  phase3_end_month : ℚ
  phase3_start_rate : ℚ
  phase3_end_rate : ℚ
  plateau_rate : ℚ
  churn_decimal_per_cycle : ℚ
  plans_info : List (String × List (String × ℚ))
  client_plan_distribution : List (String × ℚ)
  topup_users_pct : ℚ
  topup_utilization_pct : ℚ
  topup_cost_per_unit_msg : ℚ
  topup_price_per_unit_msg : ℚ
  topup_cost_per_unit_min : ℚ
  topup_price_per_unit_min : ℚ
  included_quota_per_plan : List (String × (ℚ × ℚ))
  rd_investment_pct : ℚ
  rd_revenue_pct : ℚ
  funding_rounds : List FundingRound
  fixed_staff_info : List (String × StaffInfo)
  variable_staff_info : List (String × StaffInfo)
  onboarding_hours_per_plan : List (String × ℚ)
  monthly_maintenance_hrs_per_plan : List (String × ℚ)
  onboarding_decrease_factors_per_plan : List (String × ℚ)
  maintenance_decrease_factors_per_plan : List (String × ℚ)
  overhead_items : List OverheadItem
  marketing_mode : String
  marketing_budget : ℚ
  marketing_pct_of_revenue : ℚ
  hardware_cost_per_employee : ℚ
  enable_initial_loan : Bool
  loan_interest_rate_annual : ℚ
  loan_payback_strategy : String
  loan_payback_start_month : Int
  loan_payback_end_month_index : Int
  loan_fixed_amount : ℚ
  loan_percent_of_profit : ℚ
  loan_lump_sum : ℚ

/-- The prologue of `generate_projection`: resolve missing dates via
`date.today()` (the `today` argument), normalize the frequency, substitute
the `None` fallbacks, build the period list, convert churn to per-period and
precompute the `Lump + Timeline` end index. -/
def resolveConfig (today : MyDate) (cfg : Config) : RConfig :=
  let se := match cfg.start_date, cfg.end_date with
    | some s, some e => (s, e)
    | _, _ => (today, addMonths today 12)
  let startD := se.1
  let endD := se.2
  let freq := normFreq cfg.frequency
  { period_length_in_months := periodLengthFor freq
    dts := dtListFor startD endD cfg.frequency
    phase1_start_month := cfg.phase1_start_month
    phase1_end_month := cfg.phase1_end_month
    phase1_start_rate := cfg.phase1_start_rate
    phase1_end_rate := cfg.phase1_end_rate
    phase2_start_month := cfg.phase2_start_month
    phase2_end_month := cfg.phase2_end_month
    phase2_start_rate := cfg.phase2_start_rate
    phase2_end_rate := cfg.phase2_end_rate
    phase3_start_month := cfg.phase3_start_month
    phase3_end_month := cfg.phase3_end_month
    phase3_start_rate := cfg.phase3_start_rate
    phase3_end_rate := cfg.phase3_end_rate
    plateau_rate := cfg.plateau_rate
    churn_decimal_per_cycle := (cfg.churn_rate_annual / 100) / periodsPerYearFor freq
    plans_info := cfg.plans_info.getD defaultPlansInfo
    client_plan_distribution := cfg.client_plan_distribution.getD [("Basic", 1)]
    topup_users_pct := cfg.topup_users_pct
    topup_utilization_pct := cfg.topup_utilization_pct
    topup_cost_per_unit_msg := cfg.topup_cost_per_unit_msg
    topup_price_per_unit_msg := cfg.topup_price_per_unit_msg
    topup_cost_per_unit_min := cfg.topup_cost_per_unit_min
    topup_price_per_unit_min := cfg.topup_price_per_unit_min
    included_quota_per_plan := cfg.included_quota_per_plan.getD [("Basic", (5000, 300))]
    rd_investment_pct := cfg.rd_investment_pct
    rd_revenue_pct := cfg.rd_revenue_pct
    funding_rounds := cfg.funding_rounds.getD []
    fixed_staff_info := cfg.fixed_staff_info.getD defaultFixedStaff
    variable_staff_info := cfg.variable_staff_info.getD defaultVariableStaff
    onboarding_hours_per_plan := cfg.onboarding_hours_per_plan.getD [("Basic", 12)]
    monthly_maintenance_hrs_per_plan :=
      cfg.monthly_maintenance_hrs_per_plan.getD [("Basic", 4)]
    onboarding_decrease_factors_per_plan :=
      cfg.onboarding_decrease_factors_per_plan.getD [("Basic", 1)]
    maintenance_decrease_factors_per_plan :=
      cfg.maintenance_decrease_factors_per_plan.getD [("Basic", 1)]
    overhead_items := cfg.overhead_items.getD defaultOverheadItems
    marketing_mode := cfg.marketing_mode
    marketing_budget := cfg.marketing_budget
    marketing_pct_of_revenue := cfg.marketing_pct_of_revenue
    hardware_cost_per_employee := cfg.hardware_cost_per_employee
    enable_initial_loan := cfg.enable_initial_loan
    loan_interest_rate_annual := cfg.loan_interest_rate_annual
    loan_payback_strategy := cfg.loan_payback_strategy
    loan_payback_start_month := cfg.loan_payback_start_month
    loan_payback_end_month_index :=
      match cfg.loan_payback_end_date with
      | some edt =>
        if cfg.loan_payback_strategy = "Lump + Timeline" then
          month_index_for_date edt startD cfg.frequency
        else 999999
      | none => 999999
    loan_fixed_amount := cfg.loan_fixed_amount
    loan_percent_of_profit := cfg.loan_percent_of_profit
    loan_lump_sum := cfg.loan_lump_sum }

/-- The initial rolling state: initial clients/cash, the loan balance when
the loan is enabled with a positive amount, the `lump_sum_paid` flag, and the
variable-staff headcounts configured in `variable_staff_info` (which the
source installs on the first loop iteration). -/
def initState (cfg : Config) (R : RConfig) : ProjState :=
  { current_clients := cfg.initial_clients
    current_cash := cfg.initial_cash
    loan_balance :=
      if cfg.enable_initial_loan = true ∧ cfg.initial_loan_amount > 0 then
        cfg.initial_loan_amount
      else 0
    lumpsum_already_paid := cfg.lump_sum_paid
    current_variable_staff_headcount :=
      R.variable_staff_info.map (fun rs => (rs.1, rs.2.headcount)) }

/-- Client evolution for one period (lines 449-455): growth factor from the
phased rate, organic new clients only when the factor exceeds 1, churn, and
an ending count floored at 0.  Returns `(organic_new_c, churned_c, end_c)`. -/
def clientsBlock (R : RConfig) (idx : Nat) (start_c : Int) : Int × Int × Int :=
  let this_growth_rate := get_phased_growth_rate idx
    R.phase1_start_month R.phase1_end_month R.phase1_start_rate R.phase1_end_rate
    R.phase2_start_month R.phase2_end_month R.phase2_start_rate R.phase2_end_rate
    R.phase3_start_month R.phase3_end_month R.phase3_start_rate R.phase3_end_rate
    R.plateau_rate
  let g_factor := 1 + this_growth_rate / 100
  let organic_new_c :=
    if g_factor > 1 then pyRound ((start_c : ℚ) * (g_factor - 1)) else 0
  let churned_c := pyRound ((start_c : ℚ) * R.churn_decimal_per_cycle)
  let e0 := start_c + organic_new_c - churned_c
  (organic_new_c, churned_c, if e0 < 0 then 0 else e0)

/-- `plan_splits_for_new`: the new clients fanned out across the plan
distribution. -/
def newSplitsOf (dist : List (String × ℚ)) (organic_new_c : Int) :
    List (String × ℚ) :=
  dist.map (fun pf => (pf.1, (organic_new_c : ℚ) * pf.2))

/-- The revenue / cost-of-service loop over `plans_info` (lines 473-488).
Mandatory plan keys are read with raising dict access, so a plan dict missing
`monthly_selling_price` or `monthly_cos` raises a `KeyError`; the setup keys
use `.get(..., 0.0)`.  Returns `(rev_sub, cos_sub, rev_setup, cos_setup)`. -/
def revenueBlock (plans : List (String × List (String × ℚ)))
    (dist newSplits : List (String × ℚ)) (avg_clients plm : ℚ) :
    Except String (ℚ × ℚ × ℚ × ℚ) :=
  plans.foldlM (fun acc pp => do
      let msell ← dictGetE pp.2 "monthly_selling_price"
      let mcos ← dictGetE pp.2 "monthly_cos"
      let frac_c := lookupD dist pp.1 0
      let plan_avg_c := avg_clients * frac_c
      let new_clients_for_plan := lookupD newSplits pp.1 0
      pure (acc.1 + plan_avg_c * (msell * plm),
            acc.2.1 + plan_avg_c * (mcos * plm),
            acc.2.2.1 + new_clients_for_plan * lookupD pp.2 "setup_selling_price" 0,
            acc.2.2.2 + new_clients_for_plan * lookupD pp.2 "setup_cos" 0))
    ((0, 0, 0, 0) : ℚ × ℚ × ℚ × ℚ)

/-- The top-up loop over `plans_info` (lines 490-515): buyers from the plan's
share of ending clients, extra message/minute units from the included quota,
returning `(topup_revenue, topup_cos)`. -/
def topupBlock (R : RConfig) (end_c : Int) : ℚ × ℚ :=
  R.plans_info.foldl (fun acc pp =>
    let plan_end_c := (end_c : ℚ) * lookupD R.client_plan_distribution pp.1 0
    let buyers := plan_end_c * R.topup_users_pct
    let q := lookupD R.included_quota_per_plan pp.1 (0, 0)
    let base_incl_msgs_period := q.1 * R.period_length_in_months
    let base_incl_mins_period := q.2 * R.period_length_in_months
    let extra_units_msgs := base_incl_msgs_period * R.topup_utilization_pct
    let extra_units_mins := base_incl_mins_period * R.topup_utilization_pct
    let total_extra_msgs := buyers * extra_units_msgs
    let total_extra_mins := buyers * extra_units_mins
    (acc.1 + (total_extra_msgs * R.topup_price_per_unit_msg
              + total_extra_mins * R.topup_price_per_unit_min),
     acc.2 + (total_extra_msgs * R.topup_cost_per_unit_msg
              + total_extra_mins * R.topup_cost_per_unit_min))) (0, 0)

/-- Fixed-staff payroll (lines 538-546): monthly salary raised once per
`years_elapsed`, times period length and headcount.  Returns
`(staff_cost_fixed, total_fixed_staff)`. -/
def fixedStaffBlock (staff : List (String × StaffInfo)) (years_elapsed : Nat)
    (plm : ℚ) : ℚ × Int :=
  staff.foldl (fun acc rs =>
    let base_sal_monthly_now := rs.2.base_salary * (1 + rs.2.annual_raise) ^ years_elapsed
    (acc.1 + base_sal_monthly_now * plm * (rs.2.headcount : ℚ),
     acc.2 + rs.2.headcount)) (0, 0)

/-- Onboarding workload hours (lines 549-556): per plan, new clients times
the plan's onboarding hours decayed by its decrease factor. -/
def onboardHoursBlock (newSplits : List (String × ℚ))
    (tbl factors : List (String × ℚ)) (years_elapsed : Nat) : ℚ :=
  newSplits.foldl (fun acc pn =>
    match tbl.lookup pn.1 with
    | some base_hrs =>
      acc + pn.2 * (base_hrs * (lookupD factors pn.1 1) ^ years_elapsed)
    | none => acc) 0

/-- Maintenance workload hours (lines 558-567): per plan, the plan's share of
ending clients times decayed monthly maintenance hours times period length. -/
def maintHoursBlock (dist : List (String × ℚ)) (tbl factors : List (String × ℚ))
    (years_elapsed : Nat) (end_c : Int) (plm : ℚ) : ℚ :=
  dist.foldl (fun acc pf =>
    match tbl.lookup pf.1 with
    | some mm_hrs =>
      acc + ((end_c : ℚ) * pf.2)
        * ((mm_hrs * (lookupD factors pf.1 1) ^ years_elapsed) * plm)
    | none => acc) 0

/-- One-off hiring / termination costs (source constants, in Rand). -/
def HIRE_COST_PER_EMPLOYEE : ℚ := 10000

/-- Termination cost per employee (source constant, in Rand). -/
def TERMINATE_COST_PER_EMPLOYEE : ℚ := 5000

/-- Required headcount for a variable role (lines 575-583): defaults to 1;
when the role's capacity is positive the workload-over-capacity ceiling is
used for roles whose names contain "Onboarding" or "Technical". -/
def requiredStaffOf (role : String) (capacity total_onboard_hrs
    total_technical_hrs : ℚ) : Int :=
  if capacity > 0 then
    if strContains role "Onboarding" then ⌈total_onboard_hrs / capacity⌉
    else if strContains role "Technical" then ⌈total_technical_hrs / capacity⌉
    else 1
  else 1

/-- One variable role's period cost (lines 572-599): salary for the required
headcount, plus hire cost per new hire when the requirement rose, plus
termination cost when it fell; the stored headcount is rewritten only in the
changed branches.  Returns `(cost, required_staff, new stored headcounts)`. -/
def varStaffRole (role : String) (info : StaffInfo) (years_elapsed : Nat)
    (plm total_onboard_hrs total_technical_hrs : ℚ)
    (heads : List (String × Int)) : ℚ × Int × List (String × Int) :=
  let base_salary := info.base_salary * (1 + info.annual_raise) ^ years_elapsed
  let required_staff :=
    requiredStaffOf role info.capacity total_onboard_hrs total_technical_hrs
  let current_staff := lookupD heads role 0
  if required_staff > current_staff then
    (base_salary * plm * (required_staff : ℚ)
       + HIRE_COST_PER_EMPLOYEE * ((required_staff - current_staff : Int) : ℚ),
     required_staff, setAssoc heads role required_staff)
  else if required_staff < current_staff then
    (base_salary * plm * (required_staff : ℚ)
       + TERMINATE_COST_PER_EMPLOYEE * ((current_staff - required_staff : Int) : ℚ),
     required_staff, setAssoc heads role required_staff)
  else
    (base_salary * plm * (required_staff : ℚ), required_staff, heads)

/-- The variable-staff loop: fold `varStaffRole` over `variable_staff_info`,
accumulating cost and headcount and threading the stored headcounts.
Returns `(staff_cost_variable, total_variable_staff, headcounts)`. -/
def varStaffBlock (staff : List (String × StaffInfo)) (years_elapsed : Nat)
    (plm total_onboard_hrs total_technical_hrs : ℚ)
    (heads0 : List (String × Int)) : ℚ × Int × List (String × Int) :=
  staff.foldl (fun acc rs =>
    let r := varStaffRole rs.1 rs.2 years_elapsed plm total_onboard_hrs
      total_technical_hrs acc.2.2
    (acc.1 + r.1, acc.2.1 + r.2.1, r.2.2)) (0, 0, heads0)

/-- Overhead cost for the period (lines 603-610): each item's monthly cost
inflated once per elapsed year, times period length. -/
def overheadBlock (items : List OverheadItem) (years_elapsed : Nat) (plm : ℚ) : ℚ :=
  items.foldl (fun acc oh =>
    acc + (oh.monthly_cost * (1 + oh.annual_increase / 100) ^ years_elapsed) * plm) 0

/-- Marketing spend (lines 617-628): in "fixed" mode the percentage-of-revenue
figure wins only when it exceeds 1.2 times the period budget; otherwise the
pure percentage of revenue. -/
def marketingBlock (mode : String) (budget pct total_revenue plm : ℚ) : ℚ :=
  if mode = "fixed" then
    let marketing_spend_with_pct := total_revenue * (pct / 100)
    let marketing_budget_for_period := budget * plm
    if marketing_spend_with_pct > marketing_budget_for_period * (12/10) then
      marketing_spend_with_pct
    else marketing_budget_for_period
  else total_revenue * (pct / 100)

/-- Funding rounds (lines 640-647): rounds whose trigger equals the 1-based
period index add to the inflow and divert an R&D cut out of net income into
opex.  Returns `(fin_flow, net_income, opex)`. -/
def fundingBlock (rounds : List FundingRound) (month_idx_1_based : Int)
    (rd_investment_pct net0 opex0 : ℚ) : ℚ × ℚ × ℚ :=
  rounds.foldl (fun acc fr =>
    if fr.month_trigger = month_idx_1_based then
      let rd_cut := fr.amount * (rd_investment_pct / 100)
      (acc.1 + fr.amount, acc.2.1 - rd_cut, acc.2.2 + rd_cut)
    else acc) (0, net0, opex0)

/-- Output of the loan interest/payback logic for one period. -/
structure LoanOut where
  payment : ℚ
  lumpPay : ℚ
  balance : ℚ
  net_income : ℚ
  fin_flow : ℚ
  lumpPaid : Bool
deriving DecidableEq

/-- The lump payment drawn from the funding inflow (hybrid strategy,
lines 684-692): fires when not yet paid and the lump is positive, capped by
balance and inflow; the paid flag is set only when the payment is within
`1e-9` of the full lump.  Returns `(pay_now, balance, fin_flow, flag)`. -/
def lumpPayFunding (lump eps : ℚ) (paid0 : Bool) (bal fin : ℚ) :
    ℚ × ℚ × ℚ × Bool :=
  if paid0 = false ∧ lump > 0 then
    let pay_now := min lump (min bal fin)
    (pay_now, bal - pay_now, fin - pay_now,
     if |pay_now - lump| < eps then true else paid0)
  else (0, bal, fin, paid0)

/-- The lump payment drawn from net income (`Lump + Timeline`, lines 702-709):
fires only on the payback start period, capped by balance and non-negative
net income; the paid flag set under the same `1e-9` tolerance.
Returns `(lumpsum_pay, balance, net_income, flag)`. -/
def lumpPayIncome (lump eps : ℚ) (paid0 atStart : Bool) (bal net : ℚ) :
    ℚ × ℚ × ℚ × Bool :=
  if atStart = true ∧ paid0 = false ∧ lump > 0 then
    let lumpsum_pay := min lump (min bal (max 0 net))
    (lumpsum_pay, bal - lumpsum_pay, net - lumpsum_pay,
     if |lumpsum_pay - lump| < eps then true else paid0)
  else (0, bal, net, paid0)

/-- The payback strategies (lines 667-719), applied to the post-interest
balance `bal1`.  Every payment is capped by the outstanding balance via
`min`. -/
def payback (R : RConfig) (month_idx_1_based : Int) (paid0 : Bool)
    (bal1 net1 fin0 : ℚ) : LoanOut :=
  if R.loan_payback_strategy = "fixed" ∧ R.loan_fixed_amount > 0 then
    let pay_amt := min (R.loan_fixed_amount * R.period_length_in_months)
      (min bal1 (max 0 net1))
    ⟨pay_amt, 0, bal1 - pay_amt, net1 - pay_amt, fin0, paid0⟩
  else if R.loan_payback_strategy = "Percentage of Profit" ∧
      R.loan_percent_of_profit > 0 then
    if net1 > 0 then
      let portion := min (net1 * (R.loan_percent_of_profit / 100)) bal1
      ⟨portion, 0, bal1 - portion, net1 - portion, fin0, paid0⟩
    else ⟨0, 0, bal1, net1, fin0, paid0⟩
  else if R.loan_payback_strategy = "Percentage of Profit + Lump" then
    let a := lumpPayFunding R.loan_lump_sum qEps paid0 bal1 fin0
    if R.loan_percent_of_profit > 0 ∧ net1 > 0 ∧ a.2.1 > 0 then
      let portion := min (net1 * (R.loan_percent_of_profit / 100)) a.2.1
      ⟨a.1 + portion, a.1, a.2.1 - portion, net1 - portion, a.2.2.1, a.2.2.2⟩
    else ⟨a.1, a.1, a.2.1, net1, a.2.2.1, a.2.2.2⟩
  else if R.loan_payback_strategy = "Lump + Timeline" ∧
      month_idx_1_based ≤ R.loan_payback_end_month_index then
    let a := lumpPayIncome R.loan_lump_sum qEps paid0
      (decide (month_idx_1_based = R.loan_payback_start_month)) bal1 net1
    let months_left : Int :=
      max 0 (R.loan_payback_end_month_index - month_idx_1_based + 1)
    if months_left > 0 then
      let monthly_payment := a.2.1 / (months_left : ℚ)
      let pay_amt := min monthly_payment (min a.2.1 (max 0 a.2.2.1))
      ⟨a.1 + pay_amt, a.1, a.2.1 - pay_amt, a.2.2.1 - pay_amt, fin0, a.2.2.2⟩
    else ⟨a.1, a.1, a.2.1, a.2.2.1, fin0, a.2.2.2⟩
  else ⟨0, 0, bal1, net1, fin0, paid0⟩

/-- Loan logic for one period (lines 649-719): accrue interest on a positive
balance, then apply the payback strategies when the loan is enabled, the
balance is positive and the period has reached `loan_payback_start_month`. -/
def loanBlock (R : RConfig) (month_idx_1_based : Int) (paid0 : Bool)
    (bal0 net0 fin0 : ℚ) : LoanOut :=
  let interest_for_period :=
    if bal0 > 0 then
      bal0 * ((R.loan_interest_rate_annual / 100) / 12) * R.period_length_in_months
    else 0
  let net1 := net0 - interest_for_period
  let bal1 := bal0 + interest_for_period
  if R.enable_initial_loan = true ∧ bal1 > 0 then
    if month_idx_1_based ≥ R.loan_payback_start_month then
      payback R month_idx_1_based paid0 bal1 net1 fin0
    else ⟨0, 0, bal1, net1, fin0, paid0⟩
  else ⟨0, 0, bal1, net1, fin0, paid0⟩

/-- The loop body of `generate_projection` given the (fallible) revenue
numbers `rv = (rev_sub, cos_sub, rev_setup, cos_setup)`: builds the ledger
row for the period and the next rolling state. -/
def projStepCore (R : RConfig) (idx : Nat) (d : MyDate) (s : ProjState)
    (rv : ℚ × ℚ × ℚ × ℚ) : Row × ProjState :=
  let start_c := s.current_clients
  let cb := clientsBlock R idx start_c
  let organic_new_c := cb.1
  let churned_c := cb.2.1
  let end_c := cb.2.2
  let newSplits := newSplitsOf R.client_plan_distribution organic_new_c
  let tp := topupBlock R end_c
  let total_revenue := rv.1 + rv.2.2.1 + tp.1
  let total_cos := rv.2.1 + rv.2.2.2 + tp.2
  let gross_profit := total_revenue - total_cos
  let years_elapsed := idx / 12
  let fsb := fixedStaffBlock R.fixed_staff_info years_elapsed R.period_length_in_months
  let total_onboard_hrs := onboardHoursBlock newSplits R.onboarding_hours_per_plan
    R.onboarding_decrease_factors_per_plan years_elapsed
  let total_technical_hrs := maintHoursBlock R.client_plan_distribution
    R.monthly_maintenance_hrs_per_plan R.maintenance_decrease_factors_per_plan
    years_elapsed end_c R.period_length_in_months
  let vsb := varStaffBlock R.variable_staff_info years_elapsed
    R.period_length_in_months total_onboard_hrs total_technical_hrs
    s.current_variable_staff_headcount
  let total_staff_cost := fsb.1 + vsb.1
  let oh_cost := overheadBlock R.overhead_items years_elapsed R.period_length_in_months
  let hardware_cost := ((fsb.2 + vsb.2.1 : Int) : ℚ)
    * R.hardware_cost_per_employee * R.period_length_in_months
  let marketing_spend := marketingBlock R.marketing_mode R.marketing_budget
    R.marketing_pct_of_revenue total_revenue R.period_length_in_months
  let rd_expense_monthly := total_revenue * (R.rd_revenue_pct / 100)
  let opex0 := total_staff_cost + oh_cost + hardware_cost + marketing_spend
    + rd_expense_monthly
  let ebitda := gross_profit - opex0
  let fb := fundingBlock R.funding_rounds ((idx : Int) + 1) R.rd_investment_pct
    ebitda opex0
  let lb := loanBlock R ((idx : Int) + 1) s.lumpsum_already_paid s.loan_balance
    fb.2.1 fb.1
  let cash0 := s.current_cash + (lb.net_income + lb.fin_flow + 0)
  let current_cash := if cash0 < 0 then 0 else cash0
  ({ ParsedDate := d
     Clients_Starting := start_c
     Clients_New := organic_new_c
     Clients_Churned := churned_c
     Clients_Ending := end_c
     Revenue_Subscription := rv.1
     Revenue_SetupFees := rv.2.2.1
     Revenue_TopUp := tp.1
     Revenue_Total := total_revenue
     COS_Subscription := rv.2.1 + rv.2.2.2
     COS_TopUp := tp.2
     COS_Total := total_cos
     Profit_GrossProfit := gross_profit
     Staff_Fixed := fsb.2
     Staff_Variable := vsb.2.1
     Cost_StaffFixed := fsb.1
     Cost_StaffVariable := vsb.1
     Cost_Staff := total_staff_cost
     Cost_Overheads := oh_cost
     Cost_Hardware := hardware_cost
     Cost_Marketing := marketing_spend
     Cost_RDExpense := rd_expense_monthly
     Cost_OperatingExpenses := fb.2.2
     Profit_EBITDA := ebitda
     Profit_NetIncome := lb.net_income
     CashFlow_FundingInflow := lb.fin_flow
     CashFlow_LoanInflow := 0
     CashFlow_LoanPayment := lb.payment
     CashFlow_LoanBalance := lb.balance
     CashFlow_EndingCash := current_cash
     Staff_OnboardingHrsUsed := total_onboard_hrs
     Staff_MaintenanceHrsUsed := total_technical_hrs
     lumpPay := lb.lumpPay },
   { current_clients := end_c
     current_cash := current_cash
     loan_balance := lb.balance
     lumpsum_already_paid := lb.lumpPaid
     current_variable_staff_headcount := vsb.2.2 })

/-- One loop iteration: compute the fallible revenue numbers, then the rest
of the row; a `KeyError` from the plan dicts propagates as the error. -/
def projStep (R : RConfig) (idx : Nat) (d : MyDate) (s : ProjState) :
    Except String (Row × ProjState) :=
  Except.map (projStepCore R idx d s)
    (revenueBlock R.plans_info R.client_plan_distribution
      (newSplitsOf R.client_plan_distribution (clientsBlock R idx s.current_clients).1)
      (((s.current_clients : ℚ) + ((clientsBlock R idx s.current_clients).2.2 : ℚ)) / 2)
      R.period_length_in_months)

/-- The per-period loop over the date list, threading the rolling state; the
first error aborts the whole fold. -/
def go (R : RConfig) : Nat → List MyDate → ProjState → Except String (List Row)
  | _, [], _ => .ok []
  | idx, d :: ds, s =>
    match projStep R idx d s with
    | .error e => .error e
    | .ok rs =>
      match go R (idx + 1) ds rs.2 with
      | .error e => .error e
      | .ok rows => .ok (rs.1 :: rows)

/-- `generate_projection`: resolve the configuration, run the loop, and (as
in the source's `try/except`) return an empty ledger if any period raised. -/
def generate_projection (today : MyDate) (cfg : Config) : List Row :=
  let R := resolveConfig today cfg
  match go R 0 R.dts (initState cfg R) with
  | .ok rows => rows
  | .error _ => []

/-! ### Lemmas about the loan block -/

/-- A payment capped by the balance (middle argument) keeps it non-negative. -/
lemma sub_min3_nonneg (x b y : ℚ) (h : 0 ≤ b) : 0 ≤ b - min x (min b y) := by
  have h2 : min x (min b y) ≤ b := le_trans (min_le_right _ _) (min_le_left _ _)
  linarith

/-- A payment capped by the balance (right argument) keeps it non-negative. -/
lemma sub_min2_nonneg (x b : ℚ) (h : 0 ≤ b) : 0 ≤ b - min x b := by
  have h2 := min_le_right x b
  linarith

/-- The funding-drawn lump payment leaves a non-negative balance. -/
lemma lumpPayFunding_balance_nonneg (l e : ℚ) (p : Bool) (bal fin : ℚ)
    (h : 0 ≤ bal) : 0 ≤ (lumpPayFunding l e p bal fin).2.1 := by
  unfold lumpPayFunding
  split_ifs with hc
  · exact sub_min3_nonneg _ _ _ h
  · exact h

/-- The income-drawn lump payment leaves a non-negative balance. -/
lemma lumpPayIncome_balance_nonneg (l e : ℚ) (p a : Bool) (bal net : ℚ)
    (h : 0 ≤ bal) : 0 ≤ (lumpPayIncome l e p a bal net).2.1 := by
  unfold lumpPayIncome
  split_ifs with hc
  · exact sub_min3_nonneg _ _ _ h
  · exact h

/-- Once the lump flag is set, the funding-drawn lump pays nothing and the
flag stays set. -/
lemma lumpPayFunding_of_paid (l e : ℚ) (bal fin : ℚ) :
    lumpPayFunding l e true bal fin = (0, bal, fin, true) := by
  unfold lumpPayFunding
  rw [if_neg (by simp)]

/-- Once the lump flag is set, the income-drawn lump pays nothing and the
flag stays set. -/
lemma lumpPayIncome_of_paid (l e : ℚ) (a : Bool) (bal net : ℚ) :
    lumpPayIncome l e true a bal net = (0, bal, net, true) := by
  unfold lumpPayIncome
  rw [if_neg (by simp)]

/-- A nonzero funding-drawn lump payment within tolerance of the full lump
sets the flag. -/
lemma lumpPayFunding_flag (l e : ℚ) (p : Bool) (bal fin : ℚ)
    (h1 : (lumpPayFunding l e p bal fin).1 ≠ 0)
    (h2 : |(lumpPayFunding l e p bal fin).1 - l| < e) :
    (lumpPayFunding l e p bal fin).2.2.2 = true := by
  unfold lumpPayFunding at h1 h2 ⊢
  split_ifs at h1 h2 ⊢ with hc
  · dsimp only at h2 ⊢
    rw [if_pos h2]
  · exact absurd rfl h1

/-- A nonzero income-drawn lump payment within tolerance of the full lump
sets the flag. -/
lemma lumpPayIncome_flag (l e : ℚ) (p a : Bool) (bal net : ℚ)
    (h1 : (lumpPayIncome l e p a bal net).1 ≠ 0)
    (h2 : |(lumpPayIncome l e p a bal net).1 - l| < e) :
    (lumpPayIncome l e p a bal net).2.2.2 = true := by
  unfold lumpPayIncome at h1 h2 ⊢
  split_ifs at h1 h2 ⊢ with hc
  · dsimp only at h2 ⊢
    rw [if_pos h2]
  · exact absurd rfl h1

/-- Every payback strategy leaves a non-negative balance when the
post-interest balance was non-negative. -/
lemma payback_balance_nonneg (R : RConfig) (mi : Int) (p : Bool)
    (bal1 net1 fin0 : ℚ) (h : 0 ≤ bal1) :
    0 ≤ (payback R mi p bal1 net1 fin0).balance := by
  unfold payback
  dsimp only
  split_ifs with h1 h2 h3 h4 h5 h6 h7
  · exact sub_min3_nonneg _ _ _ h
  · exact sub_min2_nonneg _ _ h
  · exact h
  · exact sub_min2_nonneg _ _ (lumpPayFunding_balance_nonneg _ _ _ _ _ h)
  · exact lumpPayFunding_balance_nonneg _ _ _ _ _ h
  · exact sub_min3_nonneg _ _ _ (lumpPayIncome_balance_nonneg _ _ _ _ _ _ h)
  · exact lumpPayIncome_balance_nonneg _ _ _ _ _ _ h
  · exact h

/-- Once the lump flag is set, no strategy pays any lump and the flag stays
set. -/
lemma payback_of_paid (R : RConfig) (mi : Int) (bal1 net1 fin0 : ℚ) :
    (payback R mi true bal1 net1 fin0).lumpPay = 0 ∧
    (payback R mi true bal1 net1 fin0).lumpPaid = true := by
  unfold payback
  dsimp only
  split_ifs <;>
    simp [lumpPayFunding_of_paid, lumpPayIncome_of_paid]

/-- A nonzero lump payment within tolerance of the full lump sets the flag,
whatever the strategy. -/
lemma payback_flag_set (R : RConfig) (mi : Int) (p : Bool)
    (bal1 net1 fin0 : ℚ)
    (h1 : (payback R mi p bal1 net1 fin0).lumpPay ≠ 0)
    (h2 : |(payback R mi p bal1 net1 fin0).lumpPay - R.loan_lump_sum| < qEps) :
    (payback R mi p bal1 net1 fin0).lumpPaid = true := by
  unfold payback at h1 h2 ⊢
  dsimp only at h1 h2 ⊢
  split_ifs at h1 h2 ⊢
  · exact absurd rfl h1
  · exact absurd rfl h1
  · exact absurd rfl h1
  · exact lumpPayFunding_flag _ _ _ _ _ h1 h2
  · exact lumpPayFunding_flag _ _ _ _ _ h1 h2
  · exact lumpPayIncome_flag _ _ _ _ _ _ h1 h2
  · exact lumpPayIncome_flag _ _ _ _ _ _ h1 h2
  · exact absurd rfl h1

/-- The loan logic keeps the balance non-negative, given a non-negative
period length and annual rate. -/
lemma loanBlock_balance_nonneg (R : RConfig) (mi : Int) (p : Bool)
    (bal0 net0 fin0 : ℚ) (hplm : 0 ≤ R.period_length_in_months)
    (hrate : 0 ≤ R.loan_interest_rate_annual) (h : 0 ≤ bal0) :
    0 ≤ (loanBlock R mi p bal0 net0 fin0).balance := by
  have hint : ∀ b : ℚ, 0 < b →
      0 ≤ b * ((R.loan_interest_rate_annual / 100) / 12) * R.period_length_in_months :=
    fun b hb => mul_nonneg (mul_nonneg (le_of_lt hb)
      (div_nonneg (div_nonneg hrate (by norm_num)) (by norm_num))) hplm
  unfold loanBlock
  dsimp only
  set I := (if bal0 > 0 then
    bal0 * ((R.loan_interest_rate_annual / 100) / 12) * R.period_length_in_months
    else 0) with hI
  have hInn : 0 ≤ I := by
    rw [hI]
    split_ifs with hb
    · exact hint bal0 hb
    · exact le_refl 0
  have hbal1 : 0 ≤ bal0 + I := by linarith
  split_ifs
  · exact payback_balance_nonneg _ _ _ _ _ _ hbal1
  · exact hbal1
  · exact hbal1

/-- Once the lump flag is set, the loan block pays no lump and keeps the
flag set. -/
lemma loanBlock_of_paid (R : RConfig) (mi : Int) (bal0 net0 fin0 : ℚ) :
    (loanBlock R mi true bal0 net0 fin0).lumpPay = 0 ∧
    (loanBlock R mi true bal0 net0 fin0).lumpPaid = true := by
  unfold loanBlock
  dsimp only
  split_ifs
  all_goals first
    | exact payback_of_paid _ _ _ _ _
    | exact ⟨rfl, rfl⟩

/-- A nonzero lump payment within tolerance of the full lump sets the loan
block's flag. -/
lemma loanBlock_flag_set (R : RConfig) (mi : Int) (p : Bool)
    (bal0 net0 fin0 : ℚ)
    (h1 : (loanBlock R mi p bal0 net0 fin0).lumpPay ≠ 0)
    (h2 : |(loanBlock R mi p bal0 net0 fin0).lumpPay - R.loan_lump_sum| < qEps) :
    (loanBlock R mi p bal0 net0 fin0).lumpPaid = true := by
  unfold loanBlock at h1 h2 ⊢
  dsimp only at h1 h2 ⊢
  split_ifs at h1 h2 ⊢
  all_goals first
    | exact payback_flag_set _ _ _ _ _ _ h1 h2
    | exact absurd rfl h1

/-- Before the payback start month the loan block pays nothing: the balance
changes only by the interest accrual. -/
lemma loanBlock_before_start (R : RConfig) (mi : Int) (p : Bool)
    (bal0 net0 fin0 : ℚ) (h : mi < R.loan_payback_start_month) :
    (loanBlock R mi p bal0 net0 fin0).payment = 0 ∧
    (loanBlock R mi p bal0 net0 fin0).balance =
      bal0 + (if bal0 > 0 then
        bal0 * ((R.loan_interest_rate_annual / 100) / 12) *
          R.period_length_in_months else 0) ∧
    (loanBlock R mi p bal0 net0 fin0).lumpPay = 0 := by
  unfold loanBlock
  dsimp only
  split_ifs <;> first
    | exact ⟨rfl, rfl, rfl⟩
    | (exfalso; omega)

/-! ### Lemmas about one projection step -/

/-- The clamped ending client count is non-negative. -/
lemma clientsBlock_nonneg (R : RConfig) (idx : Nat) (c : Int) :
    0 ≤ (clientsBlock R idx c).2.2 := by
  unfold clientsBlock
  dsimp only
  split_ifs <;> omega

/-- The ending client count of a step's row is non-negative. -/
lemma projStepCore_clients_nonneg (R : RConfig) (idx : Nat) (d : MyDate)
    (s : ProjState) (rv : ℚ × ℚ × ℚ × ℚ) :
    0 ≤ ((projStepCore R idx d s rv).1).Clients_Ending := by
  dsimp only [projStepCore]
  exact clientsBlock_nonneg R idx s.current_clients

/-- The clamped ending cash of a step's row is non-negative. -/
lemma projStepCore_cash_nonneg (R : RConfig) (idx : Nat) (d : MyDate)
    (s : ProjState) (rv : ℚ × ℚ × ℚ × ℚ) :
    0 ≤ ((projStepCore R idx d s rv).1).CashFlow_EndingCash := by
  dsimp only [projStepCore]
  split_ifs with h
  · exact le_refl 0
  · exact le_of_not_lt h

/-- The row's loan balance is non-negative and agrees with the state passed
to the next period. -/
lemma projStepCore_balance (R : RConfig) (idx : Nat) (d : MyDate)
    (s : ProjState) (rv : ℚ × ℚ × ℚ × ℚ)
    (hplm : 0 ≤ R.period_length_in_months)
    (hrate : 0 ≤ R.loan_interest_rate_annual) (h : 0 ≤ s.loan_balance) :
    0 ≤ ((projStepCore R idx d s rv).1).CashFlow_LoanBalance ∧
    (projStepCore R idx d s rv).2.loan_balance =
      ((projStepCore R idx d s rv).1).CashFlow_LoanBalance := by
  constructor
  · dsimp only [projStepCore]
    exact loanBlock_balance_nonneg _ _ _ _ _ _ hplm hrate h
  · rfl

/-- A step taken with the lump flag set pays no lump and keeps the flag. -/
lemma projStepCore_flag_kept (R : RConfig) (idx : Nat) (d : MyDate)
    (s : ProjState) (rv : ℚ × ℚ × ℚ × ℚ)
    (h : s.lumpsum_already_paid = true) :
    ((projStepCore R idx d s rv).1).lumpPay = 0 ∧
    (projStepCore R idx d s rv).2.lumpsum_already_paid = true := by
  dsimp only [projStepCore]
  rw [h]
  exact loanBlock_of_paid _ _ _ _ _

/-- A step whose row carries a nonzero lump payment within `1e-9` of the
full lump leaves the flag set in the next state. -/
lemma projStepCore_flag_set (R : RConfig) (idx : Nat) (d : MyDate)
    (s : ProjState) (rv : ℚ × ℚ × ℚ × ℚ)
    (h1 : ((projStepCore R idx d s rv).1).lumpPay ≠ 0)
    (h2 : |((projStepCore R idx d s rv).1).lumpPay - R.loan_lump_sum| < qEps) :
    (projStepCore R idx d s rv).2.lumpsum_already_paid = true := by
  dsimp only [projStepCore] at h1 h2 ⊢
  exact loanBlock_flag_set _ _ _ _ _ _ h1 h2

/-- A period strictly before the payback start month pays nothing on the
loan and the balance only accrues interest. -/
lemma projStepCore_before_start (R : RConfig) (idx : Nat) (d : MyDate)
    (s : ProjState) (rv : ℚ × ℚ × ℚ × ℚ)
    (h : (idx : Int) + 1 < R.loan_payback_start_month) :
    ((projStepCore R idx d s rv).1).CashFlow_LoanPayment = 0 ∧
    ((projStepCore R idx d s rv).1).CashFlow_LoanBalance =
      s.loan_balance + (if s.loan_balance > 0 then
        s.loan_balance * ((R.loan_interest_rate_annual / 100) / 12) *
          R.period_length_in_months else 0) := by
  have hb := loanBlock_before_start R ((idx : Int) + 1) s.lumpsum_already_paid
    s.loan_balance
  dsimp only [projStepCore]
  exact ⟨(hb _ _ h).1, (hb _ _ h).2.1⟩

/-- The row records the period's date. -/
lemma projStepCore_date (R : RConfig) (idx : Nat) (d : MyDate)
    (s : ProjState) (rv : ℚ × ℚ × ℚ × ℚ) :
    ((projStepCore R idx d s rv).1).ParsedDate = d := rfl

/-- Inversion for `Except.map` returning `.ok`. -/
lemma except_map_ok {ε α β : Type} {f : α → β} {e : Except ε α} {z : β}
    (h : e.map f = .ok z) : ∃ v, e = .ok v ∧ z = f v := by
  cases e with
  | error err => exact absurd h (by simp [Except.map])
  | ok v =>
    refine ⟨v, rfl, ?_⟩
    have : Except.ok (ε := ε) (f v) = .ok z := h
    injection this with h2
    exact h2.symm

/-- A successful step is the core applied to some revenue tuple. -/
lemma projStep_ok {R : RConfig} {idx : Nat} {d : MyDate} {s : ProjState}
    {z : Row × ProjState} (h : projStep R idx d s = .ok z) :
    ∃ rv, z = projStepCore R idx d s rv := by
  unfold projStep at h
  obtain ⟨v, _, hz⟩ := except_map_ok h
  exact ⟨v, hz⟩

/-! ### Lemmas about the projection loop -/

/-- Every row of a successful run started from a non-negative loan balance
has non-negative ending clients, loan balance and ending cash. -/
lemma go_rows_nonneg (R : RConfig) (hplm : 0 ≤ R.period_length_in_months)
    (hrate : 0 ≤ R.loan_interest_rate_annual) :
    ∀ (ds : List MyDate) (idx : Nat) (s : ProjState) (rows : List Row),
      0 ≤ s.loan_balance → go R idx ds s = .ok rows →
      ∀ r ∈ rows, 0 ≤ r.Clients_Ending ∧ 0 ≤ r.CashFlow_LoanBalance ∧
        0 ≤ r.CashFlow_EndingCash := by
  intro ds
  induction ds with
  | nil =>
    intro idx s rows hbal h r hr
    simp only [go] at h
    injection h with h2
    subst h2
    exact absurd hr (List.not_mem_nil r)
  | cons d ds ih =>
    intro idx s rows hbal h r hr
    simp only [go] at h
    cases hstep : projStep R idx d s with
    | error e => rw [hstep] at h; exact Except.noConfusion h
    | ok rs =>
      rw [hstep] at h
      dsimp only at h
      cases hgo : go R (idx + 1) ds rs.2 with
      | error e => rw [hgo] at h; exact Except.noConfusion h
      | ok rows2 =>
        rw [hgo] at h
        injection h with h2
        subst h2
        obtain ⟨rv, hrv⟩ := projStep_ok hstep
        have hbal2 := projStepCore_balance R idx d s rv hplm hrate hbal
        rcases List.mem_cons.mp hr with hEq | hmem
        · subst hEq
          rw [hrv]
          exact ⟨projStepCore_clients_nonneg R idx d s rv, hbal2.1,
            projStepCore_cash_nonneg R idx d s rv⟩
        · refine ih (idx + 1) rs.2 rows2 ?_ hgo r hmem
          rw [hrv, hbal2.2]
          exact hbal2.1

/-- Once the lump flag is set, no later row pays any lump. -/
lemma go_lump_zero (R : RConfig) :
    ∀ (ds : List MyDate) (idx : Nat) (s : ProjState) (rows : List Row),
      s.lumpsum_already_paid = true → go R idx ds s = .ok rows →
      ∀ r ∈ rows, r.lumpPay = 0 := by
  intro ds
  induction ds with
  | nil =>
    intro idx s rows hpaid h r hr
    simp only [go] at h
    injection h with h2
    subst h2
    exact absurd hr (List.not_mem_nil r)
  | cons d ds ih =>
    intro idx s rows hpaid h r hr
    simp only [go] at h
    cases hstep : projStep R idx d s with
    | error e => rw [hstep] at h; exact Except.noConfusion h
    | ok rs =>
      rw [hstep] at h
      dsimp only at h
      cases hgo : go R (idx + 1) ds rs.2 with
      | error e => rw [hgo] at h; exact Except.noConfusion h
      | ok rows2 =>
        rw [hgo] at h
        injection h with h2
        subst h2
        obtain ⟨rv, hrv⟩ := projStep_ok hstep
        have hkept := projStepCore_flag_kept R idx d s rv hpaid
        rcases List.mem_cons.mp hr with hEq | hmem
        · subst hEq
          rw [hrv]
          exact hkept.1
        · refine ih (idx + 1) rs.2 rows2 ?_ hgo r hmem
          rw [hrv]
          exact hkept.2

/-- After a row with a nonzero lump payment within `1e-9` of the full lump,
every later row pays no lump. -/
lemma go_lump_once (R : RConfig) :
    ∀ (ds : List MyDate) (idx : Nat) (s : ProjState) (rows : List Row),
      go R idx ds s = .ok rows →
      ∀ (i j : Nat) (hi : i < rows.length) (hj : j < rows.length),
        i < j → (rows.get ⟨i, hi⟩).lumpPay ≠ 0 →
        |(rows.get ⟨i, hi⟩).lumpPay - R.loan_lump_sum| < qEps →
        (rows.get ⟨j, hj⟩).lumpPay = 0 := by
  intro ds
  induction ds with
  | nil =>
    intro idx s rows h i j hi hj hij h1 h2
    simp only [go] at h
    injection h with h3
    subst h3
    exact absurd hi (by simp)
  | cons d ds ih =>
    intro idx s rows h i j hi hj hij h1 h2
    simp only [go] at h
    cases hstep : projStep R idx d s with
    | error e => rw [hstep] at h; exact Except.noConfusion h
    | ok rs =>
      rw [hstep] at h
      dsimp only at h
      cases hgo : go R (idx + 1) ds rs.2 with
      | error e => rw [hgo] at h; exact Except.noConfusion h
      | ok rows2 =>
        rw [hgo] at h
        injection h with h3
        subst h3
        obtain ⟨rv, hrv⟩ := projStep_ok hstep
        cases i with
        | zero =>
          cases j with
          | zero => exact absurd hij (by omega)
          | succ j2 =>
            have hflag : rs.2.lumpsum_already_paid = true := by
              rw [hrv]
              refine projStepCore_flag_set R idx d s rv ?_ ?_
              · exact hrv ▸ h1
              · exact hrv ▸ h2
            have hj2 : j2 < rows2.length := by
              simpa using hj
            have : (rs.1 :: rows2).get ⟨j2 + 1, hj⟩ = rows2.get ⟨j2, hj2⟩ := rfl
            rw [this]
            exact go_lump_zero R ds (idx + 1) rs.2 rows2 hflag hgo _
              (List.get_mem rows2 j2 hj2)
        | succ i2 =>
          cases j with
          | zero => exact absurd hij (by omega)
          | succ j2 =>
            have hi2 : i2 < rows2.length := by simpa using hi
            have hj2 : j2 < rows2.length := by simpa using hj
            exact ih (idx + 1) rs.2 rows2 hgo i2 j2 hi2 hj2 (by omega) h1 h2

/-- Rows at periods strictly before the payback start month record a zero
loan payment. -/
lemma go_payment_zero (R : RConfig) :
    ∀ (ds : List MyDate) (idx : Nat) (s : ProjState) (rows : List Row),
      go R idx ds s = .ok rows →
      ∀ (k : Nat) (hk : k < rows.length),
        ((idx + k : Nat) : Int) + 1 < R.loan_payback_start_month →
        (rows.get ⟨k, hk⟩).CashFlow_LoanPayment = 0 := by
  intro ds
  induction ds with
  | nil =>
    intro idx s rows h k hk _
    simp only [go] at h
    injection h with h2
    subst h2
    exact absurd hk (by simp)
  | cons d ds ih =>
    intro idx s rows h k hk hlt
    simp only [go] at h
    cases hstep : projStep R idx d s with
    | error e => rw [hstep] at h; exact Except.noConfusion h
    | ok rs =>
      rw [hstep] at h
      dsimp only at h
      cases hgo : go R (idx + 1) ds rs.2 with
      | error e => rw [hgo] at h; exact Except.noConfusion h
      | ok rows2 =>
        rw [hgo] at h
        injection h with h2
        subst h2
        obtain ⟨rv, hrv⟩ := projStep_ok hstep
        cases k with
        | zero =>
          have hlt2 : (idx : Int) + 1 < R.loan_payback_start_month := by
            push_cast at hlt
            omega
          have : (rs.1 :: rows2).get ⟨0, hk⟩ = rs.1 := rfl
          rw [this, hrv]
          exact (projStepCore_before_start R idx d s rv hlt2).1
        | succ k2 =>
          have hk2 : k2 < rows2.length := by simpa using hk
          have hlt2 : (((idx + 1) + k2 : Nat) : Int) + 1 <
              R.loan_payback_start_month := by
            push_cast at hlt ⊢
            omega
          exact ih (idx + 1) rs.2 rows2 hgo k2 hk2 hlt2

/-- On success, the ledger's dates are exactly the period list, in order. -/
lemma go_dates (R : RConfig) :
    ∀ (ds : List MyDate) (idx : Nat) (s : ProjState) (rows : List Row),
      go R idx ds s = .ok rows → rows.map Row.ParsedDate = ds := by
  intro ds
  induction ds with
  | nil =>
    intro idx s rows h
    simp only [go] at h
    injection h with h2
    subst h2
    rfl
  | cons d ds ih =>
    intro idx s rows h
    simp only [go] at h
    cases hstep : projStep R idx d s with
    | error e => rw [hstep] at h; exact Except.noConfusion h
    | ok rs =>
      rw [hstep] at h
      dsimp only at h
      cases hgo : go R (idx + 1) ds rs.2 with
      | error e => rw [hgo] at h; exact Except.noConfusion h
      | ok rows2 =>
        rw [hgo] at h
        injection h with h2
        subst h2
        obtain ⟨rv, hrv⟩ := projStep_ok hstep
        have hd : rs.1.ParsedDate = d := by
          rw [hrv]
          exact projStepCore_date R idx d s rv
        simp only [List.map_cons, hd, ih (idx + 1) rs.2 rows2 hgo]

/-! ### Facts about the resolved configuration -/

/-- The period length is one of 1, 3, 12 months, hence non-negative. -/
lemma periodLengthFor_nonneg (f : String) : 0 ≤ periodLengthFor f := by
  unfold periodLengthFor
  split_ifs <;> norm_num

/-- The resolved period length comes from the normalized frequency. -/
lemma resolveConfig_plm (t : MyDate) (cfg : Config) :
    (resolveConfig t cfg).period_length_in_months =
      periodLengthFor (normFreq cfg.frequency) := rfl

/-- The resolved interest rate is the configured one. -/
lemma resolveConfig_rate (t : MyDate) (cfg : Config) :
    (resolveConfig t cfg).loan_interest_rate_annual =
      cfg.loan_interest_rate_annual := rfl

/-- The resolved lump sum is the configured one. -/
lemma resolveConfig_lump (t : MyDate) (cfg : Config) :
    (resolveConfig t cfg).loan_lump_sum = cfg.loan_lump_sum := rfl

/-- The initial loan balance is never negative. -/
lemma initState_balance_nonneg (cfg : Config) (R : RConfig) :
    0 ≤ (initState cfg R).loan_balance := by
  unfold initState
  dsimp only
  split_ifs with h
  · exact le_of_lt h.2
  · exact le_refl 0

/-! ### Concrete configurations used by witnesses and counterexamples -/

/-- A fixed invocation date standing for `date.today()`. -/
def t0 : MyDate := ⟨2025, 1, 1⟩

/-- A minimal two-period monthly configuration in which every revenue and
cost stream is zero. -/
def cfgBase : Config :=
  { start_date := some ⟨2025, 1, 1⟩
    end_date := some ⟨2025, 2, 1⟩
    frequency := "Month"
    initial_cash := 0
    initial_clients := 0
    churn_rate_annual := 0
    plans_info := some [("Basic", [("monthly_selling_price", 0), ("monthly_cos", 0)])]
    client_plan_distribution := some [("Basic", 1)]
    fixed_staff_info := some []
    variable_staff_info := some []
    overhead_items := some []
    marketing_mode := "percentage"
    marketing_budget := 0 }

/-- Enabled loan with interest under the `fixed` strategy. -/
def cfgLoanFixed : Config :=
  { cfgBase with
    enable_initial_loan := true
    initial_loan_amount := 1000
    loan_interest_rate_annual := 12
    loan_payback_strategy := "fixed"
    loan_fixed_amount := 100
    loan_payback_start_month := 1 }

/-- The `fixed` strategy with payback starting only at the second period. -/
def cfgLoanLater : Config :=
  { cfgLoanFixed with loan_payback_start_month := 2 }

/-- Hybrid strategy whose 100 lump exceeds each period's 50 funding inflow,
so the lump payment is capped and recurs. -/
def cfgLumpTwice : Config :=
  { cfgBase with
    enable_initial_loan := true
    initial_loan_amount := 1000
    loan_interest_rate_annual := 0
    loan_payback_strategy := "Percentage of Profit + Lump"
    loan_lump_sum := 100
    funding_rounds := some [⟨1, 50⟩, ⟨2, 50⟩] }

/-- Hybrid strategy whose lump is fully covered by the first funding round. -/
def cfgLumpFull : Config :=
  { cfgLumpTwice with funding_rounds := some [⟨1, 100⟩, ⟨2, 50⟩] }

/-- A distribution plan name absent from `plans_info`. -/
def cfgGhostPlan : Config :=
  { cfgBase with client_plan_distribution := some [("Ghost", 1)] }

/-- A plan dict missing the mandatory `monthly_selling_price` key. -/
def cfgMissingKey : Config :=
  { cfgBase with plans_info := some [("Basic", [("monthly_cos", 400)])] }

/-- A quarterly run over one calendar year with a single fixed-staff role
paid 1000 per month with a 7% annual raise. -/
def cfgQuarterRaise : Config :=
  { cfgBase with
    end_date := some ⟨2026, 1, 1⟩
    frequency := "Quarter"
    fixed_staff_info := some [("CEO", ⟨1, 1000, 7/100, 0⟩)] }

/-- A yearly-frequency configuration with both dates omitted, so the engine
substitutes `date.today()`. -/
def cfgNoDates : Config :=
  { cfgBase with start_date := none, end_date := none, frequency := "Year" }

/-! ### Helper lemmas about dates and the period list -/

/-- `dateLe` unfolded to a linear-arithmetic proposition. -/
lemma dateLe_iff (a b : MyDate) :
    dateLe a b = true ↔
      (a.y < b.y ∨ (a.y = b.y ∧ (a.m < b.m ∨ (a.m = b.m ∧ a.d ≤ b.d)))) := by
  simp [dateLe]

/-- `dateLt` unfolded to a linear-arithmetic proposition. -/
lemma dateLt_iff (a b : MyDate) :
    dateLt a b = true ↔
      (a.y < b.y ∨ (a.y = b.y ∧ (a.m < b.m ∨ (a.m = b.m ∧ a.d < b.d)))) := by
  simp [dateLt]

/-- A strictly earlier end date fails the loop guard. -/
lemma dateLe_false_of_dateLt (a b : MyDate) (h : dateLt b a = true) :
    dateLe a b = false := by
  rw [Bool.eq_false_iff, Ne, dateLe_iff]
  rw [dateLt_iff] at h
  omega

/-! ### C2: growth-curve boundary behavior -/

/-- C2: with phase1 = {1,6,18,22} and phase2 = {7,12,22,28} (any phase3 and
plateau), the growth rate at 1-based period 6 is 22 (flat carry of phase1's
end rate, not its interpolation) and at period 7 it is 22 (phase2's own
interpolation at its start); and with a degenerate phase1 = {6,6,18,22} the
rate at period 6 is still the flat 22 with no division by zero: phase
boundaries are half-open. -/
theorem C2_growth_rate_boundaries :
    ∀ (p3s p3e p3sr p3er plat : ℚ),
      get_phased_growth_rate 5 1 6 18 22 7 12 22 28 p3s p3e p3sr p3er plat = 22 ∧
      get_phased_growth_rate 6 1 6 18 22 7 12 22 28 p3s p3e p3sr p3er plat = 22 ∧
      get_phased_growth_rate 5 6 6 18 22 7 12 22 28 p3s p3e p3sr p3er plat = 22 := by
  intro p3s p3e p3sr p3er plat
  refine ⟨?_, ?_, ?_⟩ <;> norm_num [get_phased_growth_rate]

/-! ### C6: the period list -/

/-- C6 (counterexample): with `end_date == start_date` the generated period
sequence has exactly 1 element, not at least 2 as claimed. -/
theorem C6_counterexample_single_period :
    (dtListFor ⟨2025, 1, 1⟩ ⟨2025, 1, 1⟩ "Month").length = 1 := by decide

/-- C6 (amended): the period sequence always has at least 1 period, and when
`end_date < start_date` (strictly) the loop produces nothing and the fallback
yields exactly the 2 periods `[start, start + 1 month]`; when
`end_date == start_date` the output is the single period `[start]`. -/
theorem C6_period_list_minimum :
    ∀ (s e : MyDate) (f : String),
      1 ≤ (dtListFor s e f).length ∧
      (dateLt e s = true → dtListFor s e f = [s, addMonths s 1]) := by
  intro s e f
  have hfuel : (monthDiff s e).toNat + 20 = ((monthDiff s e).toNat + 19) + 1 := rfl
  unfold dtListFor
  rw [hfuel]
  cases hle : dateLe s e with
  | true =>
    simp only [buildDtList, hle, if_true]
    constructor
    · rw [if_neg (by simp)]
      simp
    · intro hlt
      rw [dateLe_false_of_dateLt s e hlt] at hle
      exact absurd hle (by simp)
  | false =>
    simp only [buildDtList, hle]
    constructor
    · simp
    · intro _
      simp

/-- C6 witness: instantiating the amended statement at concrete dates, with
the strict-inequality hypothesis discharged. -/
theorem C6_period_list_minimum_witness :
    1 ≤ (dtListFor ⟨2025, 3, 1⟩ ⟨2025, 6, 1⟩ "Quarter").length ∧
    dtListFor ⟨2025, 3, 1⟩ ⟨2024, 12, 31⟩ "Month"
      = [⟨2025, 3, 1⟩, addMonths ⟨2025, 3, 1⟩ 1] :=
  ⟨(C6_period_list_minimum ⟨2025, 3, 1⟩ ⟨2025, 6, 1⟩ "Quarter").1,
   (C6_period_list_minimum ⟨2025, 3, 1⟩ ⟨2024, 12, 31⟩ "Month").2 (by decide)⟩

/-! ### C9: variable-role headcount defaults -/

/-- C9: a variable role whose name contains neither "Onboarding" nor
"Technical", or whose capacity is 0, always has required headcount exactly 1,
regardless of the workload hours. -/
theorem C9_required_staff_default :
    ∀ (role : String) (capacity onb tech : ℚ),
      ((strContains role "Onboarding" = false ∧ strContains role "Technical" = false)
        ∨ capacity = 0) →
      requiredStaffOf role capacity onb tech = 1 := by
  intro role cap onb tech h
  unfold requiredStaffOf
  rcases h with ⟨h1, h2⟩ | h
  · split_ifs with hc ho ht
    · rw [ho] at h1; exact absurd h1 (by simp)
    · rw [ht] at h2; exact absurd h2 (by simp)
    · rfl
    · rfl
  · rw [h]
    norm_num

/-- C9 witness: a generically named role with positive capacity, and an
"Onboarding" role with zero capacity, both require exactly 1 staff member
even under heavy workloads. -/
theorem C9_required_staff_default_witness :
    requiredStaffOf "CEO - RCS Executive" 160 500 700 = 1 ∧
    requiredStaffOf "Onboarding Specialist" 0 500 700 = 1 :=
  ⟨C9_required_staff_default "CEO - RCS Executive" 160 500 700
     (Or.inl ⟨by decide, by decide⟩),
   C9_required_staff_default "Onboarding Specialist" 0 500 700 (Or.inr rfl)⟩

/-! ### C7: variable-staff hire/terminate one-shot -/

/-- C7: for a variable role, when the required headcount equals the stored
previous headcount the period cost is exactly `salary_now * period_length *
required` with no hiring or termination charge and the stored headcounts are
left untouched; a hire charge of 10000 per head (resp. termination charge of
5000 per head) is added exactly when the requirement rose (resp. fell), and
only then is the stored headcount rewritten to the new requirement. -/
theorem C7_hire_terminate_one_shot :
    ∀ (role : String) (info : StaffInfo) (ye : Nat) (plm onb tech : ℚ)
      (heads : List (String × Int)),
      (requiredStaffOf role info.capacity onb tech = lookupD heads role 0 →
        varStaffRole role info ye plm onb tech heads =
          (info.base_salary * (1 + info.annual_raise) ^ ye * plm *
             ((requiredStaffOf role info.capacity onb tech : Int) : ℚ),
           requiredStaffOf role info.capacity onb tech, heads)) ∧
      (requiredStaffOf role info.capacity onb tech > lookupD heads role 0 →
        varStaffRole role info ye plm onb tech heads =
          (info.base_salary * (1 + info.annual_raise) ^ ye * plm *
             ((requiredStaffOf role info.capacity onb tech : Int) : ℚ)
            + HIRE_COST_PER_EMPLOYEE *
             ((requiredStaffOf role info.capacity onb tech - lookupD heads role 0 : Int) : ℚ),
           requiredStaffOf role info.capacity onb tech,
           setAssoc heads role (requiredStaffOf role info.capacity onb tech))) ∧
      (requiredStaffOf role info.capacity onb tech < lookupD heads role 0 →
        varStaffRole role info ye plm onb tech heads =
          (info.base_salary * (1 + info.annual_raise) ^ ye * plm *
             ((requiredStaffOf role info.capacity onb tech : Int) : ℚ)
            + TERMINATE_COST_PER_EMPLOYEE *
             ((lookupD heads role 0 - requiredStaffOf role info.capacity onb tech : Int) : ℚ),
           requiredStaffOf role info.capacity onb tech,
           setAssoc heads role (requiredStaffOf role info.capacity onb tech))) := by
  intro role info ye plm onb tech heads
  refine ⟨fun h => ?_, fun h => ?_, fun h => ?_⟩
  · unfold varStaffRole
    rw [if_neg (by omega), if_neg (by omega)]
  · unfold varStaffRole
    rw [if_pos (by omega)]
  · unfold varStaffRole
    rw [if_neg (by omega), if_pos (by omega)]

/-- C7 witness: an onboarding role at capacity 160 with 300 onboarding hours
requires 2 staff; with stored headcount 2 the cost is bare salary, with
stored headcount 1 a hire fires, with stored headcount 3 a termination
fires. -/
theorem C7_hire_terminate_one_shot_witness :
    varStaffRole "Onboarding Specialist" ⟨0, 3000, 5/100, 160⟩ 0 1 300 0
        [("Onboarding Specialist", 2)] = (6000, 2, [("Onboarding Specialist", 2)]) ∧
    varStaffRole "Onboarding Specialist" ⟨0, 3000, 5/100, 160⟩ 0 1 300 0
        [("Onboarding Specialist", 1)] = (16000, 2, [("Onboarding Specialist", 2)]) ∧
    varStaffRole "Onboarding Specialist" ⟨0, 3000, 5/100, 160⟩ 0 1 300 0
        [("Onboarding Specialist", 3)] = (11000, 2, [("Onboarding Specialist", 2)]) := by
  refine ⟨?_, ?_, ?_⟩
  · have := (C7_hire_terminate_one_shot "Onboarding Specialist" ⟨0, 3000, 5/100, 160⟩
      0 1 300 0 [("Onboarding Specialist", 2)]).1 (by decide)
    rw [this]; decide
  · have := (C7_hire_terminate_one_shot "Onboarding Specialist" ⟨0, 3000, 5/100, 160⟩
      0 1 300 0 [("Onboarding Specialist", 1)]).2.1 (by decide)
    rw [this]; decide
  · have := (C7_hire_terminate_one_shot "Onboarding Specialist" ⟨0, 3000, 5/100, 160⟩
      0 1 300 0 [("Onboarding Specialist", 3)]).2.2 (by decide)
    rw [this]; decide

/-- A run of `generate_projection` is either the empty ledger (the error
branch of the source's `try/except`) or exactly the successful fold. -/
lemma gp_run (t : MyDate) (cfg : Config) :
    generate_projection t cfg = [] ∨
    go (resolveConfig t cfg) 0 (resolveConfig t cfg).dts
      (initState cfg (resolveConfig t cfg)) = .ok (generate_projection t cfg) := by
  simp only [generate_projection]
  cases hgo : go (resolveConfig t cfg) 0 (resolveConfig t cfg).dts
      (initState cfg (resolveConfig t cfg)) with
  | error e => exact Or.inl rfl
  | ok rows => exact Or.inr rfl

/-! ### C1: ledger non-negativity -/

/-- C1: with non-negative initial clients, cash, loan amount and annual loan
interest rate, every row of the ledger has `Clients_Ending >= 0` (ending
clients are floored at 0), `CashFlow_LoanBalance >= 0` (every payment is
capped at the outstanding balance) and `CashFlow_EndingCash >= 0` (ending
cash is floored at 0). -/
theorem C1_ledger_nonnegativity :
    ∀ (today : MyDate) (cfg : Config),
      0 ≤ cfg.initial_clients → 0 ≤ cfg.initial_cash →
      0 ≤ cfg.initial_loan_amount → 0 ≤ cfg.loan_interest_rate_annual →
      ∀ (i : Nat) (hi : i < (generate_projection today cfg).length),
        0 ≤ ((generate_projection today cfg).get ⟨i, hi⟩).Clients_Ending ∧
        0 ≤ ((generate_projection today cfg).get ⟨i, hi⟩).CashFlow_LoanBalance ∧
        0 ≤ ((generate_projection today cfg).get ⟨i, hi⟩).CashFlow_EndingCash := by
  intro t cfg _ _ _ hrate i hi
  rcases gp_run t cfg with hemp | hok
  · have hi2 := hi
    rw [hemp] at hi2
    exact absurd hi2 (by simp)
  · refine go_rows_nonneg (resolveConfig t cfg) ?_ ?_ _ 0 _ _
      (initState_balance_nonneg cfg _) hok _ (List.get_mem _ i hi)
    · rw [resolveConfig_plm]
      exact periodLengthFor_nonneg _
    · rw [resolveConfig_rate]
      exact hrate

/-- C1 witness: the first period of a two-period run with an enabled 1000
loan at 12% under the `fixed` strategy. -/
theorem C1_ledger_nonnegativity_witness :
    0 ≤ ((generate_projection t0 cfgLoanFixed).get ⟨0, by decide⟩).Clients_Ending ∧
    0 ≤ ((generate_projection t0 cfgLoanFixed).get ⟨0, by decide⟩).CashFlow_LoanBalance ∧
    0 ≤ ((generate_projection t0 cfgLoanFixed).get ⟨0, by decide⟩).CashFlow_EndingCash :=
  C1_ledger_nonnegativity t0 cfgLoanFixed (by decide) (by decide) (by decide)
    (by decide) 0 (by decide)

/-! ### C10: no payback before the start month -/

/-- C10: for every payback strategy, a period whose 1-based index is below
`loan_payback_start_month` records `CashFlow_LoanPayment = 0`; at step level
such a period's loan balance is exactly the incoming balance plus interest
accrual (and nothing else), whatever the revenue numbers. -/
theorem C10_no_payment_before_start :
    (∀ (today : MyDate) (cfg : Config) (i : Nat)
        (hi : i < (generate_projection today cfg).length),
        (i : Int) + 1 < (resolveConfig today cfg).loan_payback_start_month →
        ((generate_projection today cfg).get ⟨i, hi⟩).CashFlow_LoanPayment = 0) ∧
    (∀ (R : RConfig) (idx : Nat) (d : MyDate) (s : ProjState)
        (rv : ℚ × ℚ × ℚ × ℚ),
        (idx : Int) + 1 < R.loan_payback_start_month →
        ((projStepCore R idx d s rv).1).CashFlow_LoanPayment = 0 ∧
        ((projStepCore R idx d s rv).1).CashFlow_LoanBalance =
          s.loan_balance + (if s.loan_balance > 0 then
            s.loan_balance * ((R.loan_interest_rate_annual / 100) / 12) *
              R.period_length_in_months else 0)) := by
  constructor
  · intro t cfg i hi hlt
    rcases gp_run t cfg with hemp | hok
    · have hi2 := hi
      rw [hemp] at hi2
      exact absurd hi2 (by simp)
    · refine go_payment_zero (resolveConfig t cfg) _ 0 _ _ hok i hi ?_
      push_cast
      omega
  · intro R idx d s rv hlt
    exact projStepCore_before_start R idx d s rv hlt

/-- C10 witness: with payback starting at month 2, the first period pays
nothing under the `fixed` strategy, and the step-level balance equation holds
at the initial state. -/
theorem C10_no_payment_before_start_witness :
    ((generate_projection t0 cfgLoanLater).get ⟨0, by decide⟩).CashFlow_LoanPayment = 0 ∧
    (((projStepCore (resolveConfig t0 cfgLoanLater) 0 t0
        (initState cfgLoanLater (resolveConfig t0 cfgLoanLater))
        (0, 0, 0, 0)).1).CashFlow_LoanPayment = 0 ∧
     ((projStepCore (resolveConfig t0 cfgLoanLater) 0 t0
        (initState cfgLoanLater (resolveConfig t0 cfgLoanLater))
        (0, 0, 0, 0)).1).CashFlow_LoanBalance =
       (initState cfgLoanLater (resolveConfig t0 cfgLoanLater)).loan_balance +
         (if (initState cfgLoanLater (resolveConfig t0 cfgLoanLater)).loan_balance > 0 then
            (initState cfgLoanLater (resolveConfig t0 cfgLoanLater)).loan_balance *
              (((resolveConfig t0 cfgLoanLater).loan_interest_rate_annual / 100) / 12) *
              (resolveConfig t0 cfgLoanLater).period_length_in_months
          else 0)) :=
  ⟨C10_no_payment_before_start.1 t0 cfgLoanLater 0 (by decide) (by decide),
   C10_no_payment_before_start.2 (resolveConfig t0 cfgLoanLater) 0 t0
     (initState cfgLoanLater (resolveConfig t0 cfgLoanLater)) (0, 0, 0, 0)
     (by decide)⟩

/-! ### C4: the lump-sum one-shot flag -/

/-- C4 counterexample: under `Percentage of Profit + Lump` with a 100 lump
and two funding rounds of 50, the lump payment is capped at 50 in *both* of
the first two periods; a nonzero lump-sum payment occurs in two distinct
periods, so the flag does not guarantee at-most-once firing for capped
lumps. -/
theorem C4_counterexample_capped_lump_recurs :
    ((generate_projection t0 cfgLumpTwice).map Row.lumpPay) = [50, 50] ∧
    (((generate_projection t0 cfgLumpTwice).map Row.lumpPay).countP
        (fun q => q != 0)) = 2 := by
  exact ⟨by decide, by decide⟩

/-- C4 (amended): the `lump_sum_paid` flag guarantees at-most-once firing
only for *full* lump payments: after a period whose nonzero lump payment is
within the code's `1e-9` tolerance of `loan_lump_sum`, no later period pays
any lump.  A lump capped strictly below the configured amount (by the
funding inflow, the balance, or net income) leaves the flag unset and can
recur in later periods. -/
theorem C4_full_lump_at_most_once :
    ∀ (today : MyDate) (cfg : Config) (i j : Nat)
      (hi : i < (generate_projection today cfg).length)
      (hj : j < (generate_projection today cfg).length),
      i < j →
      ((generate_projection today cfg).get ⟨i, hi⟩).lumpPay ≠ 0 →
      |((generate_projection today cfg).get ⟨i, hi⟩).lumpPay -
        cfg.loan_lump_sum| < qEps →
      ((generate_projection today cfg).get ⟨j, hj⟩).lumpPay = 0 := by
  intro t cfg i j hi hj hij h1 h2
  rcases gp_run t cfg with hemp | hok
  · have hi2 := hi
    rw [hemp] at hi2
    exact absurd hi2 (by simp)
  · exact go_lump_once (resolveConfig t cfg) _ 0 _ _ hok i j hi hj hij h1 h2

/-- C4 witness: when the first funding round covers the 100 lump in full,
period 0 pays the whole lump and period 1 pays no lump. -/
theorem C4_full_lump_at_most_once_witness :
    ((generate_projection t0 cfgLumpFull).get ⟨1, by decide⟩).lumpPay = 0 :=
  C4_full_lump_at_most_once t0 cfgLumpFull 0 1 (by decide) (by decide)
    (by decide) (by decide) (by decide)

/-! ### C5: empty-or-total ledgers -/

/-- C5 counterexample: a plan name present in the distribution but missing
from `plans_info` raises no exception at all — the run succeeds and returns
a complete ledger (one row per generated period), not an empty one. -/
theorem C5_counterexample_ghost_plan_succeeds :
    generate_projection t0 cfgGhostPlan ≠ [] ∧
    (generate_projection t0 cfgGhostPlan).length =
      (resolveConfig t0 cfgGhostPlan).dts.length := by
  exact ⟨by decide, by decide⟩

/-- C5 (amended): any failure inside the per-period loop (for example a plan
dict missing the mandatory `monthly_selling_price` key) yields the empty
ledger, and a successful run yields exactly one row per generated period in
period order; no partial ledger is ever returned.  (A plan present in the
distribution but missing from `plans_info` is not a failure: such a plan
simply contributes no revenue.) -/
theorem C5_empty_or_total :
    (∀ (today : MyDate) (cfg : Config),
        generate_projection today cfg = [] ∨
        (generate_projection today cfg).map Row.ParsedDate =
          (resolveConfig today cfg).dts) ∧
    generate_projection t0 cfgMissingKey = [] := by
  constructor
  · intro t cfg
    rcases gp_run t cfg with hemp | hok
    · exact Or.inl hemp
    · exact Or.inr (go_dates _ _ _ _ _ hok)
  · decide

/-! ### C8: determinism -/

/-- C8 counterexample: with `start_date` and `end_date` omitted the engine
substitutes `date.today()`, so two invocations with the identical
configuration on different days produce different ledgers. -/
theorem C8_counterexample_today_dependence :
    generate_projection ⟨2025, 1, 1⟩ cfgNoDates ≠
      generate_projection ⟨2026, 1, 1⟩ cfgNoDates := by
  decide

/-- C8 (amended): whenever both `start_date` and `end_date` are provided,
`generate_projection` is a pure function of its configuration: the ledger
does not depend on the invocation date (and there is no other hidden state
or randomness in the embedded engine). -/
theorem C8_deterministic_given_dates :
    ∀ (t1 t2 : MyDate) (cfg : Config) (sd ed : MyDate),
      cfg.start_date = some sd → cfg.end_date = some ed →
      generate_projection t1 cfg = generate_projection t2 cfg := by
  intro t1 t2 cfg sd ed hs he
  have hres : resolveConfig t1 cfg = resolveConfig t2 cfg := by
    unfold resolveConfig
    rw [hs, he]
  unfold generate_projection
  rw [hres]

/-- C8 witness: two invocations on different days with both dates supplied
produce the same ledger. -/
theorem C8_deterministic_given_dates_witness :
    generate_projection ⟨2025, 1, 1⟩ cfgBase =
      generate_projection ⟨2026, 5, 7⟩ cfgBase :=
  C8_deterministic_given_dates ⟨2025, 1, 1⟩ ⟨2026, 5, 7⟩ cfgBase
    ⟨2025, 1, 1⟩ ⟨2025, 2, 1⟩ rfl rfl

/-! ### C3: annual raises under non-monthly frequencies -/

/-- C3: the code computes `years_elapsed = floor(period_index / 12)` from the
*period* index, not from elapsed calendar months.  Under quarter frequency
the 5th period (0-based index 4) lies 12 calendar months after the start, so
the claimed exponent is `floor(4*3/12) = 1` and the claimed fixed-staff cost
for a 1000-salary role with a 7% raise is `1000 * 1.07^1 * 3 * 1 = 3210`;
the code instead uses exponent `floor(4/12) = 0` and charges 3000 in every
one of the five quarterly periods. -/
theorem C3_raise_uses_period_count_not_months :
    ((generate_projection t0 cfgQuarterRaise).map Row.Cost_StaffFixed) =
      [3000, 3000, 3000, 3000, 3000] ∧
    (4 * 3) / 12 = 1 ∧
    ((1000 : ℚ) * (1 + 7/100) ^ (1 : Nat) * 3 * 1 = 3210) := by
  refine ⟨by decide, by norm_num, by norm_num⟩

end InvDash
